import Mathlib

/-!
# Verification of `overwrite_shape_commentator` (`src/__init__.py`)

Shallow embedding of the `COMMENT` context manager: the trace callback
installed by `COMMENT.__enter__`, the dedup bookkeeping in
`COMMENT.__init__` (class-level `visited` set), and the in-place file
patch performed by `COMMENT.__exit__`.

Modelling conventions:
* File paths are modelled as plain strings already in absolute form, so
  `os.path.abspath` is the identity and never shown explicitly.
* A value returned by a traced call is modelled by the observable results
  of accessing its `shape` and `dtype` attributes.  An attribute access is
  deterministic and either raises `AttributeError` (constructor `absent`,
  which `hasattr` converts to `False`), raises some other exception
  (constructor `raises`, which `hasattr` propagates — Python 3 `hasattr`
  only swallows `AttributeError`), or yields a value (`present`).  The
  `dtype` attribute is modelled directly by the string `str(value.dtype)`
  and the `shape` attribute by the list of integers `tuple(value.shape)`.
* Frame introspection (`sys._getframe`, `frame.f_back`) is modelled by
  passing the observable data of the relevant frames explicitly: the
  activation position for `__init__`, and per trace event the event name,
  the optional caller frame (file, line) and the return value.
* `sys.gettrace`/`sys.settrace` are modelled by threading the currently
  installed trace slot through enter/exit.
-/

set_option autoImplicit false

namespace ShapeCommentator

/-- Result of accessing one attribute of an arbitrary Python value.
`absent` means the access raises `AttributeError` (so `hasattr` is
`False`); `raises e` means it raises some non-`AttributeError` exception
`e` (which `hasattr` propagates); `present a` means it yields `a`. -/
inductive Attr (α : Type) where
  | absent
  | raises (e : String)
  | present (a : α)
  deriving DecidableEq, Repr

/-- The caller frame data used by the tracer: `os.path.abspath
(frame.f_back.f_code.co_filename)` and `frame.f_back.f_lineno`. -/
structure Frame where
  filename : String
  lineno : Nat
  deriving DecidableEq, Repr

/-- The observable attribute behaviour of a traced return value:
`shape` models `tuple(value.shape)`, `dtype` models `str(value.dtype)`. -/
structure Value where
  shape : Attr (List Nat)
  dtype : Attr String
  deriving DecidableEq, Repr

/-- One invocation of the trace callback: the event name, the caller
frame `frame.f_back` (if any), and the argument (the return value on a
`"return"` event). -/
structure Event where
  event : String
  fBack : Option Frame
  arg : Value
  deriving DecidableEq, Repr

/-- What a single invocation of the trace callback does on exit:
it returns itself (`return tracer`), falls off the end and returns
`None`, or lets an exception `e` escape. -/
inductive TRet where
  | self
  | noneRet
  | raised (e : String)
  deriving DecidableEq, Repr

/-- Python `s.split('.')` on the character list of `s`: always a
nonempty list of fragments; `"".split('.') == ['']`. -/
def splitOnDot : List Char → List (List Char)
  | [] => [[]]
  | c :: rest =>
    if c = '.' then [] :: splitOnDot rest
    else
      match splitOnDot rest with
      | [] => [[c]]
      | h :: t => (c :: h) :: t

/-- `str(arg.dtype).split('.')[-1]`: the last dot-separated component.
`split` always yields a nonempty list, so the default of `getLastD` is
never used. -/
def lastDotComponent (s : String) : String :=
  String.mk ((splitOnDot s.data).getLastD [])

/-- `str(tuple(arg.shape))` for a tuple of nonnegative integers:
`()`, `(12,)`, `(2, 6)`, ... -/
def pyTupleStr : List Nat → String
  | [] => "()"
  | [a] => "(" ++ toString a ++ ",)"
  | l => "(" ++ String.intercalate ", " (l.map toString) ++ ")"

/-- The descriptor string recorded for a value:
`str(arg.dtype).split('.')[-1] + str(tuple(arg.shape))`. -/
def descriptorOf (dtypeStr : String) (shape : List Nat) : String :=
  lastDotComponent dtypeStr ++ pyTupleStr shape

/-- `self.comment[k] = v` on a Python dict modelled as an association
list in insertion order: overwrite in place if the key exists, else
append. -/
def insertMap (m : List (Nat × String)) (k : Nat) (v : String) :
    List (Nat × String) :=
  if k ∈ m.map Prod.fst then
    m.map (fun p => if p.1 = k then (k, v) else p)
  else m ++ [(k, v)]

/-- The local function `tracer` of `COMMENT.__enter__`, acting on one
event.  Faithful to the source:

```
def tracer(frame, event, arg):
    if event != 'return': return tracer
    if not frame.f_back: return tracer
    b_filename = os.path.abspath(frame.f_back.f_code.co_filename)
    b_lineno = frame.f_back.f_lineno
    funcname = frame.f_code.co_name
    if b_filename != self.target_filename: return tracer
    if hasattr(arg, 'shape') and hasattr(arg, 'dtype'):
        self.comment[b_lineno] = str(arg.dtype).split('.')[-1] + str(tuple(arg.shape))
```

The result is `self.comment` after the call together with how the call
returned.  Note the final branch has no `return` statement: it returns
`None`.  `hasattr` evaluates the attribute access, so a
non-`AttributeError` exception escapes the callback; the assignment to
`self.comment` only happens when both accesses succeed. -/
def tracer (target : String) (comment : List (Nat × String)) (ev : Event) :
    List (Nat × String) × TRet :=
  if ev.event ≠ "return" then (comment, TRet.self)
  else
    match ev.fBack with
    | none => (comment, TRet.self)
    | some fb =>
      if fb.filename ≠ target then (comment, TRet.self)
      else
        match ev.arg.shape with
        | Attr.absent => (comment, TRet.noneRet)
        | Attr.raises e => (comment, TRet.raised e)
        | Attr.present s =>
          match ev.arg.dtype with
          | Attr.absent => (comment, TRet.noneRet)
          | Attr.raises e => (comment, TRet.raised e)
          | Attr.present d =>
            (insertMap comment fb.lineno (descriptorOf d s), TRet.noneRet)

/-- Python list indexing `lines[lineno - 1]` where `lineno` is a Python
int ≥ 0 modelled as `Nat`: for `lineno ≥ 1` the index is `lineno - 1`,
valid iff below the length; for `lineno = 0` the Python index is `-1`,
which denotes the last element of a nonempty list.  `none` means
`IndexError`. -/
def pyIdx (len : Nat) (lineno : Nat) : Option Nat :=
  if 1 ≤ lineno then
    if lineno - 1 < len then some (lineno - 1) else none
  else
    if 0 < len then some (len - 1) else none

/-- The per-line rewrite of `COMMENT.__exit__`:
`lines[i][:-1] + "# " + descriptor + "\n"`.  Python `[:-1]` drops the
final character whatever it is (the newline for every line produced by
`readlines` except a last line with no trailing newline). -/
def patchLine (line : String) (descriptor : String) : String :=
  line.dropRight 1 ++ "# " ++ descriptor ++ "\n"

/-- The patch loop of `COMMENT.__exit__`:

```
for b_lineno in self.comment:
    lines[b_lineno-1] = lines[b_lineno-1][:-1] + "# " + self.comment[b_lineno] + "\n"
```

iterating over the dict in insertion order; an out-of-range index raises
`IndexError`, which escapes `__exit__`. -/
def patchLines : List String → List (Nat × String) → Except String (List String)
  | lines, [] => Except.ok lines
  | lines, (ln, d) :: rest =>
    match pyIdx lines.length ln with
    | none => Except.error "IndexError"
    | some i => patchLines (lines.set i (patchLine (lines.getD i "") d)) rest

/-- An activation position: `(target_filename, target_lineno)` of the
construction site, as computed by `COMMENT.__init__` from the caller
frame. -/
abbrev Pos := String × Nat

/-- Abstract state of the thread's trace slot (`sys.gettrace()`):
no tracer, some tracer installed by code outside this library, or the
tracer installed by the scope constructed at `pos`. -/
inductive TraceSlot where
  | noTracer
  | external (k : Nat)
  | scope (pos : Pos)
  deriving DecidableEq, Repr

/-- The per-object state of a `COMMENT` instance.  `savedTracer` models
`self._tracer`, which Python only assigns in `__enter__`; the default
here is irrelevant because `__exit__` reads it only after a non-inert
`__enter__` has run. -/
structure ScopeState where
  position : Pos
  noentry : Bool
  comment : List (Nat × String)
  savedTracer : TraceSlot := TraceSlot.noTracer
  deriving DecidableEq, Repr

/-- Python `set.add` on the class-level `visited` set, modelled as a
duplicate-free-by-membership list. -/
def addVisited (v : List Pos) (pos : Pos) : List Pos :=
  if pos ∈ v then v else pos :: v

/-- `COMMENT.__init__`: given the process-wide `COMMENT.visited` set and
the construction position (absolute file and line of the caller frame),
compute the new object's state and the updated visited set:

```
self.position = (self.target_filename, self.target_lineno)
self.noentry = self.position in COMMENT.visited
COMMENT.visited.add(self.position)
self.comment = dict()
```
-/
def commentInit (visited : List Pos) (pos : Pos) : ScopeState × List Pos :=
  ({ position := pos, noentry := decide (pos ∈ visited), comment := [] },
   addVisited visited pos)

/-- `COMMENT.__enter__` acting on the trace slot: an inert scope returns
at once and changes nothing; otherwise it saves the current tracer into
`self._tracer` and installs its own callback. -/
def commentEnter (s : ScopeState) (slot : TraceSlot) : ScopeState × TraceSlot :=
  if s.noentry then (s, slot)
  else ({ s with savedTracer := slot }, TraceSlot.scope s.position)

/-- `COMMENT.__exit__`: receives the exception information (`none` when
the bracketed region finished normally; the source ignores it either
way).  An inert scope does nothing.  Otherwise it restores the saved
tracer and rewrites the target file; the restore happens before the
patch, so the returned slot is the saved one even if the patch raises.
The `verbose` print is a side effect outside the file/trace state. -/
def commentExit (s : ScopeState) (exc : Option String) (slot : TraceSlot)
    (file : List String) : TraceSlot × Except String (List String) :=
  match exc with
  | _ =>
    if s.noentry then (slot, Except.ok file)
    else (s.savedTracer, patchLines file s.comment)

/-- Modelled from the spec (§4.2, claim C5's words only — compared
against the code's `patchLine`): "strip the line's trailing newline,
append a literal `# ` followed by the descriptor, then restore the
newline". -/
def specPatchLine (line : String) (descriptor : String) : String :=
  (if line.data.getLastD ' ' = '\n' then line.dropRight 1 else line)
    ++ "# " ++ descriptor ++ "\n"

/-! ## Helper lemmas about the patch loop -/

theorem pyIdx_eq_some (len ln : Nat) (h1 : 1 ≤ ln) (h2 : ln ≤ len) :
    pyIdx len ln = some (ln - 1) := by
  unfold pyIdx
  rw [if_pos h1, if_pos (by omega)]

/-- A successful patch never changes the number of lines. -/
theorem patchLines_ok_length (comment : List (Nat × String)) :
    ∀ lines out : List String, patchLines lines comment = Except.ok out →
      out.length = lines.length := by
  induction comment with
  | nil =>
    intro lines out h
    simp only [patchLines] at h
    injection h with h
    rw [h]
  | cons hd tl ih =>
    intro lines out h
    obtain ⟨ln, d⟩ := hd
    simp only [patchLines] at h
    cases hidx : pyIdx lines.length ln with
    | none => rw [hidx] at h; exact Except.noConfusion h
    | some i =>
      rw [hidx] at h
      have := ih _ _ h
      simpa using this

/-- A successful patch leaves every line whose number is not a key
byte-for-byte unchanged (keys are 1-based, indices 0-based). -/
theorem patchLines_ok_getD (comment : List (Nat × String)) :
    ∀ (lines out : List String) (i : Nat),
      patchLines lines comment = Except.ok out →
      (∀ p ∈ comment, 1 ≤ p.1) →
      (∀ p ∈ comment, p.1 ≠ i + 1) →
      out.getD i "" = lines.getD i "" := by
  induction comment with
  | nil =>
    intro lines out i h _ _
    simp only [patchLines] at h
    injection h with h
    rw [h]
  | cons hd tl ih =>
    intro lines out i h hpos hne
    obtain ⟨ln, d⟩ := hd
    simp only [patchLines] at h
    cases hidx : pyIdx lines.length ln with
    | none => rw [hidx] at h; exact Except.noConfusion h
    | some j =>
      rw [hidx] at h
      have h1 : 1 ≤ ln := hpos (ln, d) (by simp)
      have hj : j = ln - 1 := by
        unfold pyIdx at hidx
        rw [if_pos h1] at hidx
        by_cases hlt : ln - 1 < lines.length
        · rw [if_pos hlt] at hidx; injection hidx with hidx; omega
        · rw [if_neg hlt] at hidx; exact Option.noConfusion hidx
      have hne1 : ln ≠ i + 1 := hne (ln, d) (by simp)
      have hstep := ih _ _ i h
        (fun p hp => hpos p (by simp [hp]))
        (fun p hp => hne p (by simp [hp]))
      rw [hstep, List.getD_eq_getElem?_getD, List.getD_eq_getElem?_getD,
        List.getElem?_set_ne (by omega), ← List.getD_eq_getElem?_getD]

/-- The patch loop succeeds whenever every key is between 1 and the
number of lines. -/
theorem patchLines_isOk (comment : List (Nat × String)) :
    ∀ lines : List String,
      (∀ p ∈ comment, 1 ≤ p.1 ∧ p.1 ≤ lines.length) →
      (patchLines lines comment).isOk = true := by
  induction comment with
  | nil => intro lines _; rfl
  | cons hd tl ih =>
    intro lines hb
    obtain ⟨ln, d⟩ := hd
    obtain ⟨h1, h2⟩ := hb (ln, d) (by simp)
    simp only [patchLines, pyIdx_eq_some lines.length ln h1 h2]
    exact ih _ (fun p hp => by
      have := hb p (by simp [hp])
      simpa using this)

/-- The patch loop raises `IndexError` whenever some key exceeds the
number of lines. -/
theorem patchLines_oob (comment : List (Nat × String)) :
    ∀ lines : List String,
      (∃ p ∈ comment, lines.length < p.1) →
      patchLines lines comment = Except.error "IndexError" := by
  induction comment with
  | nil => intro lines h; simp at h
  | cons hd tl ih =>
    intro lines h
    obtain ⟨ln, d⟩ := hd
    simp only [patchLines]
    cases hidx : pyIdx lines.length ln with
    | none => rfl
    | some j =>
      apply ih
      obtain ⟨p, hp, hlt⟩ := h
      rcases List.mem_cons.mp hp with hp | hp
      · exfalso
        have h1 : 1 ≤ ln := by
          have : lines.length < ln := by rw [hp] at hlt; exact hlt
          omega
        unfold pyIdx at hidx
        rw [if_pos h1, if_neg (by rw [hp] at hlt; omega)] at hidx
        exact Option.noConfusion hidx
      · exact ⟨p, hp, by simpa using hlt⟩

/-! ## Claim theorems -/

/-- C1: for a call made on a source line of the target file whose value
has `shape == (3, 4)` and `dtype` stringifying to `int64`, the tracer
records the descriptor `int64(3, 4)` for that line and the patch at
scope exit rewrites `a = f(x)` (plus newline) into
`a = f(x)# int64(3, 4)` (plus newline); in general the recorded
descriptor is the last dot-separated component of `str(value.dtype)`
concatenated with `str(tuple(value.shape))`. -/
theorem c1_descriptor_and_line_rewrite
    (m : List (Nat × String)) (target : String) (ln2 : Nat)
    (d : String) (s : List Nat) (lines : List String) (ln : Nat)
    (h1 : 1 ≤ ln) (h2 : ln ≤ lines.length)
    (h3 : lines.getD (ln - 1) "" = "a = f(x)\n") :
    (tracer target m
        ⟨"return", some ⟨target, ln2⟩, ⟨Attr.present s, Attr.present d⟩⟩).1
      = insertMap m ln2 (lastDotComponent d ++ pyTupleStr s) ∧
    (tracer target []
        ⟨"return", some ⟨target, ln⟩,
          ⟨Attr.present [3, 4], Attr.present "int64"⟩⟩).1
      = [(ln, "int64(3, 4)")] ∧
    patchLines lines [(ln, "int64(3, 4)")]
      = Except.ok (lines.set (ln - 1) "a = f(x)# int64(3, 4)\n") := by
  refine ⟨by simp [tracer, descriptorOf], ?_, ?_⟩
  · simp [tracer, insertMap,
      show descriptorOf "int64" [3, 4] = "int64(3, 4)" from rfl]
  · simp only [patchLines, pyIdx_eq_some lines.length ln h1 h2, h3]
    rfl

/-- Witness for C1 at the one-line file `a = f(x)\n`. -/
theorem c1_witness :
    (tracer "t.py" []
        ⟨"return", some ⟨"t.py", 7⟩,
          ⟨Attr.present [2, 6], Attr.present "torch.int64"⟩⟩).1
      = insertMap [] 7 (lastDotComponent "torch.int64" ++ pyTupleStr [2, 6]) ∧
    (tracer "t.py" []
        ⟨"return", some ⟨"t.py", 1⟩,
          ⟨Attr.present [3, 4], Attr.present "int64"⟩⟩).1
      = [(1, "int64(3, 4)")] ∧
    patchLines ["a = f(x)\n"] [(1, "int64(3, 4)")]
      = Except.ok (["a = f(x)\n"].set 0 "a = f(x)# int64(3, 4)\n") :=
  c1_descriptor_and_line_rewrite [] "t.py" 7 "torch.int64" [2, 6]
    ["a = f(x)\n"] 1 (by decide) (by decide) rfl

/-- C2: constructing a second scope at the same activation key makes it
inert: its enter installs no tracer, its exit leaves the file exactly as
it was; the first scope at that key is not inert and its exit runs the
patch. -/
theorem c2_second_entry_noop (v : List Pos) (pos : Pos)
    (slot cur : TraceSlot) (m : List (Nat × String)) (file : List String)
    (exc : Option String) (hnew : pos ∉ v) :
    (commentInit v pos).1.noentry = false ∧
    commentExit { (commentEnter (commentInit v pos).1 slot).1 with comment := m }
        exc cur file
      = (slot, patchLines file m) ∧
    (commentInit (commentInit v pos).2 pos).1.noentry = true ∧
    commentEnter (commentInit (commentInit v pos).2 pos).1 cur
      = ((commentInit (commentInit v pos).2 pos).1, cur) ∧
    commentExit (commentInit (commentInit v pos).2 pos).1 exc cur file
      = (cur, Except.ok file) := by
  simp [commentInit, commentEnter, commentExit, addVisited, hnew]

/-- Witness for C2: a fresh activation key. -/
theorem c2_witness :
    (commentInit [] ("t.py", 3)).1.noentry = false ∧
    commentExit
        { (commentEnter (commentInit [] ("t.py", 3)).1 TraceSlot.noTracer).1 with
            comment := [(1, "int64(3, 4)")] }
        none TraceSlot.noTracer ["a = f(x)\n"]
      = (TraceSlot.noTracer, patchLines ["a = f(x)\n"] [(1, "int64(3, 4)")]) ∧
    (commentInit (commentInit [] ("t.py", 3)).2 ("t.py", 3)).1.noentry = true ∧
    commentEnter (commentInit (commentInit [] ("t.py", 3)).2 ("t.py", 3)).1
        TraceSlot.noTracer
      = ((commentInit (commentInit [] ("t.py", 3)).2 ("t.py", 3)).1,
         TraceSlot.noTracer) ∧
    commentExit (commentInit (commentInit [] ("t.py", 3)).2 ("t.py", 3)).1
        none TraceSlot.noTracer ["a = f(x)\n"]
      = (TraceSlot.noTracer, Except.ok ["a = f(x)\n"]) :=
  c2_second_entry_noop [] ("t.py", 3) TraceSlot.noTracer TraceSlot.noTracer
    [(1, "int64(3, 4)")] ["a = f(x)\n"] none (by decide)

/-- C3 counterexample: on a return event whose caller frame is in the
target file the callback does not return itself — the final branch of
`tracer` has no `return` statement, so it returns `None`. -/
theorem c3_counterexample :
    (tracer "t.py" []
        ⟨"return", some ⟨"t.py", 5⟩,
          ⟨Attr.present [3], Attr.present "int64"⟩⟩).2 = TRet.noneRet ∧
    (tracer "t.py" []
        ⟨"return", some ⟨"t.py", 5⟩,
          ⟨Attr.present [3], Attr.present "int64"⟩⟩).2 ≠ TRet.self := by
  constructor
  · rfl
  · decide

/-- C3 amended: the callback returns itself exactly on the events it
dismisses early — non-return events, return events with no caller frame,
and return events whose caller is in another file; on a return event
whose caller is in the target file it falls through and returns `None`
(or lets an inspection error escape). -/
theorem c3_returns_self_iff (target : String) (m : List (Nat × String))
    (ev : Event) :
    (tracer target m ev).2 = TRet.self ↔
      ¬(ev.event = "return" ∧
        ∃ fb, ev.fBack = some fb ∧ fb.filename = target) := by
  obtain ⟨e, ofb, ⟨sh, dt⟩⟩ := ev
  unfold tracer
  by_cases he : e = "return"
  · subst he
    cases ofb with
    | none => simp
    | some fb =>
      by_cases hf : fb.filename = target
      · cases sh <;> cases dt <;> simp_all
      · simp_all
  · simp_all

/-- C4 counterexample: a value whose `shape` attribute access raises an
exception other than `AttributeError` makes the callback itself raise —
`hasattr` only swallows `AttributeError`, and there is no try/except in
the callback. -/
theorem c4_counterexample :
    tracer "t.py" []
        ⟨"return", some ⟨"t.py", 3⟩,
          ⟨Attr.raises "ValueError", Attr.present "int64"⟩⟩
      = ([], TRet.raised "ValueError") := by
  decide

/-- C4 amended: on a return event attributed to the target file, the
callback raises `e` exactly when the `shape` access raises `e` (a
non-`AttributeError` exception), or the `shape` access succeeds and the
`dtype` access raises `e`; an `AttributeError` (modelled `absent`) on
either attribute is treated as "not annotatable": the map is unchanged
and the callback returns normally. -/
theorem c4_attributeerror_only (target : String) (m : List (Nat × String))
    (ev : Event) (e : String) (fb : Frame) (s : List Nat)
    (hret : ev.event = "return") (hfb : ev.fBack = some fb)
    (hfile : fb.filename = target) :
    ((tracer target m ev).2 = TRet.raised e ↔
      (ev.arg.shape = Attr.raises e ∨
        ((∃ s2, ev.arg.shape = Attr.present s2) ∧
          ev.arg.dtype = Attr.raises e))) ∧
    tracer target m
        ⟨"return", some fb, ⟨Attr.absent, ev.arg.dtype⟩⟩
      = (m, TRet.noneRet) ∧
    tracer target m
        ⟨"return", some fb, ⟨Attr.present s, Attr.absent⟩⟩
      = (m, TRet.noneRet) := by
  obtain ⟨e2, ofb, ⟨sh, dt⟩⟩ := ev
  simp only at hret hfb
  subst hret hfb
  refine ⟨?_, by simp [tracer, hfile], by simp [tracer, hfile]⟩
  unfold tracer
  cases sh <;> cases dt <;> simp_all

/-- Witness for C4 amended, at a value raising `ValueError` on `shape`
access and at values raising `AttributeError`. -/
theorem c4_witness :
    (tracer "t.py" []
        ⟨"return", some ⟨"t.py", 3⟩,
          ⟨Attr.raises "ValueError", Attr.present "int64"⟩⟩).2
      = TRet.raised "ValueError" ∧
    tracer "t.py" []
        ⟨"return", some ⟨"t.py", 3⟩, ⟨Attr.absent, Attr.present "int64"⟩⟩
      = ([], TRet.noneRet) ∧
    tracer "t.py" []
        ⟨"return", some ⟨"t.py", 3⟩, ⟨Attr.present [3], Attr.absent⟩⟩
      = ([], TRet.noneRet) :=
  ⟨(c4_attributeerror_only "t.py" []
      ⟨"return", some ⟨"t.py", 3⟩, ⟨Attr.raises "ValueError", Attr.present "int64"⟩⟩
      "ValueError" ⟨"t.py", 3⟩ [3] rfl rfl rfl).1.mpr (Or.inl rfl),
   (c4_attributeerror_only "t.py" []
      ⟨"return", some ⟨"t.py", 3⟩, ⟨Attr.raises "ValueError", Attr.present "int64"⟩⟩
      "ValueError" ⟨"t.py", 3⟩ [3] rfl rfl rfl).2.1,
   (c4_attributeerror_only "t.py" []
      ⟨"return", some ⟨"t.py", 3⟩, ⟨Attr.raises "ValueError", Attr.present "int64"⟩⟩
      "ValueError" ⟨"t.py", 3⟩ [3] rfl rfl rfl).2.2⟩

/-- C5 counterexample: on a last line with no trailing newline, Python
`line[:-1]` removes the line's final character (here the closing
parenthesis), not a newline — the result differs from the claimed
strip-newline/append/restore transform. -/
theorem c5_counterexample :
    patchLines ["x = f()"] [(1, "int64(3, 4)")]
      = Except.ok ["x = f(# int64(3, 4)\n"] ∧
    "x = f(# int64(3, 4)\n" ≠ specPatchLine "x = f()" "int64(3, 4)" := by
  constructor
  · rfl
  · decide

/-- C5 amended: the patch replaces the target line by
`line[:-1] + "# " + descriptor + "\n"`; when the line ends with a
newline this coincides with stripping the newline, appending `# ` and
the descriptor, and restoring the newline, but a final line without a
trailing newline loses its last character instead. -/
theorem c5_patch_transforms_line (lines : List String) (ln : Nat)
    (d : String) (h1 : 1 ≤ ln) (h2 : ln ≤ lines.length) :
    patchLines lines [(ln, d)]
      = Except.ok (lines.set (ln - 1) (patchLine (lines.getD (ln - 1) "") d)) ∧
    patchLine (lines.getD (ln - 1) "") d
      = (lines.getD (ln - 1) "").dropRight 1 ++ "# " ++ d ++ "\n" ∧
    specPatchLine (lines.getD (ln - 1) "") d
      = (if (lines.getD (ln - 1) "").data.getLastD ' ' = '\n' then
          patchLine (lines.getD (ln - 1) "") d
        else (lines.getD (ln - 1) "") ++ "# " ++ d ++ "\n") := by
  refine ⟨?_, rfl, ?_⟩
  · simp only [patchLines, pyIdx_eq_some lines.length ln h1 h2]
  · unfold specPatchLine patchLine
    split <;> rfl

/-- Witness for C5 amended: a newline-terminated line, where the code's
transform agrees with the spec's strip/append/restore description. -/
theorem c5_witness :
    patchLines ["a = b\n"] [(1, "int64(2, 6)")]
      = Except.ok (["a = b\n"].set 0 (patchLine (["a = b\n"].getD 0 "") "int64(2, 6)")) ∧
    patchLine (["a = b\n"].getD 0 "") "int64(2, 6)"
      = (["a = b\n"].getD 0 "").dropRight 1 ++ "# " ++ "int64(2, 6)" ++ "\n" ∧
    specPatchLine (["a = b\n"].getD 0 "") "int64(2, 6)"
      = (if (["a = b\n"].getD 0 "").data.getLastD ' ' = '\n' then
          patchLine (["a = b\n"].getD 0 "") "int64(2, 6)"
        else (["a = b\n"].getD 0 "") ++ "# " ++ "int64(2, 6)" ++ "\n") :=
  c5_patch_transforms_line ["a = b\n"] 1 "int64(2, 6)" (by decide) (by decide)

/-- C6: a successful patch preserves the number of lines (and hence
their order: each untouched line stays at its index), and every line
whose 1-based number is not a key of the descriptor map is byte-for-byte
unchanged. -/
theorem c6_patch_structure (lines out : List String)
    (comment : List (Nat × String)) (i : Nat)
    (hpos : ∀ p ∈ comment, 1 ≤ p.1)
    (hok : patchLines lines comment = Except.ok out)
    (hni : ∀ p ∈ comment, p.1 ≠ i + 1) :
    out.length = lines.length ∧ out.getD i "" = lines.getD i "" :=
  ⟨patchLines_ok_length comment lines out hok,
   patchLines_ok_getD comment lines out i hok hpos hni⟩

/-- Witness for C6: a two-line file with only line 1 in the map; line 2
is untouched. -/
theorem c6_witness :
    (["x# d\n", "y\n"] : List String).length
      = (["x\n", "y\n"] : List String).length ∧
    (["x# d\n", "y\n"] : List String).getD 1 ""
      = (["x\n", "y\n"] : List String).getD 1 "" :=
  c6_patch_structure ["x\n", "y\n"] ["x# d\n", "y\n"] [(1, "d")] 1
    (by decide) rfl (by decide)

/-- C7: for a non-inert scope, `__exit__` behaves identically whatever
exception information it receives: it restores the trace slot saved at
`__enter__` and runs the patch on whatever descriptors were collected
before the error. -/
theorem c7_exit_restores_and_patches (v : List Pos) (pos : Pos)
    (slot0 cur : TraceSlot) (m : List (Nat × String)) (file : List String)
    (exc : Option String) (hnew : pos ∉ v) :
    commentExit
        { (commentEnter (commentInit v pos).1 slot0).1 with comment := m }
        exc cur file
      = (slot0, patchLines file m) ∧
    commentExit
        { (commentEnter (commentInit v pos).1 slot0).1 with comment := m }
        exc cur file
      = commentExit
        { (commentEnter (commentInit v pos).1 slot0).1 with comment := m }
        none cur file := by
  simp [commentInit, commentEnter, commentExit, hnew]

/-- Witness for C7: exit with a propagating `RuntimeError` still
restores the pre-scope external tracer and patches the collected
descriptor. -/
theorem c7_witness :
    commentExit
        { (commentEnter (commentInit [] ("u.py", 9)).1 (TraceSlot.external 0)).1 with
            comment := [(2, "int64(2, 2)")] }
        (some "RuntimeError") (TraceSlot.scope ("u.py", 9)) ["a\n", "b\n"]
      = (TraceSlot.external 0,
         patchLines ["a\n", "b\n"] [(2, "int64(2, 2)")]) ∧
    commentExit
        { (commentEnter (commentInit [] ("u.py", 9)).1 (TraceSlot.external 0)).1 with
            comment := [(2, "int64(2, 2)")] }
        (some "RuntimeError") (TraceSlot.scope ("u.py", 9)) ["a\n", "b\n"]
      = commentExit
        { (commentEnter (commentInit [] ("u.py", 9)).1 (TraceSlot.external 0)).1 with
            comment := [(2, "int64(2, 2)")] }
        none (TraceSlot.scope ("u.py", 9)) ["a\n", "b\n"] :=
  c7_exit_restores_and_patches [] ("u.py", 9) (TraceSlot.external 0)
    (TraceSlot.scope ("u.py", 9)) [(2, "int64(2, 2)")] ["a\n", "b\n"]
    (some "RuntimeError") (by decide)

/-- C8: the descriptor map is updated only on a return event with a
caller frame in the target file and a value with both attributes
present; in every other case it is unchanged.  Conversely, on such an
event the map is updated at the caller's line with the value's
descriptor. -/
theorem c8_map_update_characterization (target : String)
    (m : List (Nat × String)) (ev : Event) (ln : Nat) (s : List Nat)
    (d : String) :
    ((tracer target m ev).1 = m ∨
      (ev.event = "return" ∧
        ∃ fb s2 d2, ev.fBack = some fb ∧ fb.filename = target ∧
          ev.arg.shape = Attr.present s2 ∧ ev.arg.dtype = Attr.present d2 ∧
          (tracer target m ev).1
            = insertMap m fb.lineno (descriptorOf d2 s2))) ∧
    (tracer target m
        ⟨"return", some ⟨target, ln⟩,
          ⟨Attr.present s, Attr.present d⟩⟩).1
      = insertMap m ln (descriptorOf d s) := by
  constructor
  · obtain ⟨e, ofb, ⟨sh, dt⟩⟩ := ev
    by_cases he : e = "return"
    · subst he
      cases ofb with
      | none => left; simp [tracer]
      | some fb =>
        by_cases hf : fb.filename = target
        · cases sh with
          | absent => left; simp [tracer, hf]
          | raises e2 => left; simp [tracer, hf]
          | present s2 =>
            cases dt with
            | absent => left; simp [tracer, hf]
            | raises e2 => left; simp [tracer, hf]
            | present d2 =>
              right
              exact ⟨rfl, fb, s2, d2, rfl, hf, rfl, rfl, by simp [tracer, hf]⟩
        · left; simp [tracer, hf]
    · left; simp [tracer, he]
  · simp [tracer]

/-- C9: constructing a scope records its activation key in the
process-wide visited set (enter/exit never touch the set — they do not
even receive it); the set only grows under construction, and any scope
constructed while its key is already present is inert. -/
theorem c9_visited_only_grows (v w : List Pos) (pos q : Pos)
    (hq : q ∈ v) (hw : pos ∈ w) :
    q ∈ (commentInit v pos).2 ∧
    pos ∈ (commentInit v pos).2 ∧
    (commentInit w pos).1.noentry = true := by
  refine ⟨?_, ?_, by simp [commentInit, hw]⟩
  · simp only [commentInit, addVisited]
    split
    · exact hq
    · exact List.mem_cons_of_mem _ hq
  · simp only [commentInit, addVisited]
    split
    · assumption
    · exact List.mem_cons_self _ _

/-- Witness for C9. -/
theorem c9_witness :
    ("a.py", 1) ∈ (commentInit [("a.py", 1)] ("t.py", 3)).2 ∧
    ("t.py", 3) ∈ (commentInit [("a.py", 1)] ("t.py", 3)).2 ∧
    (commentInit [("t.py", 3)] ("t.py", 3)).1.noentry = true :=
  c9_visited_only_grows [("a.py", 1)] [("t.py", 3)] ("t.py", 3) ("a.py", 1)
    (by decide) (by decide)

/-- C10: for a non-inert scope whose recorded line numbers are all
positive (as every `f_lineno` is), the patch step of `__exit__`
succeeds exactly when every recorded line number is at most the number
of lines of the file read at exit time; a recorded line number beyond
the end of the file makes the unguarded indexing raise `IndexError`,
which propagates out of `__exit__`. -/
theorem c10_exit_patch_totality (s : ScopeState) (exc : Option String)
    (cur : TraceSlot) (file : List String)
    (hni : s.noentry = false)
    (hpos : ∀ p ∈ s.comment, 1 ≤ p.1) :
    (((commentExit s exc cur file).2).isOk = true ↔
      ∀ p ∈ s.comment, p.1 ≤ file.length) ∧
    ((commentExit s exc cur file).2 = Except.error "IndexError" ↔
      ∃ p ∈ s.comment, file.length < p.1) := by
  have he : (commentExit s exc cur file).2 = patchLines file s.comment := by
    simp [commentExit, hni]
  rw [he]
  have hiff : (patchLines file s.comment).isOk = true ↔
      ∀ p ∈ s.comment, p.1 ≤ file.length := by
    constructor
    · intro hok
      by_contra hnall
      push_neg at hnall
      obtain ⟨p, hp, hlt⟩ := hnall
      rw [patchLines_oob s.comment file ⟨p, hp, hlt⟩] at hok
      exact Bool.noConfusion hok
    · intro hall
      exact patchLines_isOk s.comment file
        (fun p hp => ⟨hpos p hp, hall p hp⟩)
  refine ⟨hiff, ?_, fun hoob => patchLines_oob s.comment file hoob⟩
  intro herr
  by_contra hnex
  push_neg at hnex
  have hok := hiff.mpr (fun p hp => hnex p hp)
  rw [herr] at hok
  exact Bool.noConfusion hok

/-- Witness for C10: an in-range map succeeds; the same map fails with
`IndexError` on a file truncated to one line. -/
theorem c10_witness :
    ((commentExit
        { position := ("t.py", 1), noentry := false, comment := [(2, "d")] }
        none TraceSlot.noTracer ["a\n", "b\n"]).2).isOk = true ∧
    (commentExit
        { position := ("t.py", 1), noentry := false, comment := [(2, "d")] }
        none TraceSlot.noTracer ["a\n"]).2 = Except.error "IndexError" :=
  ⟨(c10_exit_patch_totality
      { position := ("t.py", 1), noentry := false, comment := [(2, "d")] }
      none TraceSlot.noTracer ["a\n", "b\n"] rfl (by decide)).1.mpr
      (by decide),
   (c10_exit_patch_totality
      { position := ("t.py", 1), noentry := false, comment := [(2, "d")] }
      none TraceSlot.noTracer ["a\n"] rfl (by decide)).2.mpr
      ⟨(2, "d"), by decide, by decide⟩⟩

end ShapeCommentator
